import Mathlib

namespace ToneCoach

/-! ## `SpeechAnalyzer.calculate_expressiveness_score`
    (speech_analyzer.py, lines 290-350) -/

/-- Source: `pitch_score = min(1.0, pitch_var / 50.0)`. -/
def pitch_score (pitch_var : ℚ) : ℚ := min 1 (pitch_var / 50)

/-- Source: `energy_score = min(1.0, energy_var / 0.2)`. -/
def energy_score (energy_var : ℚ) : ℚ := min 1 (energy_var / (2/10))

/-- Branch taken when `speech_rate < 2.0`: `speech_rate / 2.0`. -/
def rate_score_low (speech_rate : ℚ) : ℚ := speech_rate / 2

/-- Branch taken when `speech_rate > 5.0`: `max(0, 1.0 - (speech_rate - 5.0) / 3.0)`. -/
def rate_score_high (speech_rate : ℚ) : ℚ := max 0 (1 - (speech_rate - 5) / 3)

/-- Branch taken otherwise: `1.0 - abs(speech_rate - 3.5) / 1.5`. -/
def rate_score_mid (speech_rate : ℚ) : ℚ := 1 - |speech_rate - 7/2| / (3/2)

/-- The `rate_score` piecewise definition of the source. -/
def rate_score (speech_rate : ℚ) : ℚ :=
  if speech_rate < 2 then rate_score_low speech_rate
  else if speech_rate > 5 then rate_score_high speech_rate
  else rate_score_mid speech_rate

/-- The `pause_score` piecewise definition of the source. -/
def pause_score (pause_ratio : ℚ) : ℚ :=
  if pause_ratio < 3/20 then pause_ratio / (3/20)
  else if pause_ratio > 3/10 then max 0 (1 - (pause_ratio - 3/10) / (1/5))
  else 1

/-- Source `calculate_expressiveness_score`: the weighted sum of the five component
scores (weights 0.35 / 0.25 / 0.15 / 0.15 / 0.10), scaled to 0-100 and
clamped: `min(100, max(0, weighted_score * 100))`. -/
def calculate_expressiveness_score (pitch_var energy_var speech_rate pause_ratio
    emotion_confidence : ℚ) : ℚ :=
  let weighted_score :=
    (35/100) * pitch_score pitch_var +
    (25/100) * energy_score energy_var +
    (15/100) * rate_score speech_rate +
    (15/100) * pause_score pause_ratio +
    (10/100) * emotion_confidence
  min 100 (max 0 (weighted_score * 100))

/-! ## `FeedbackGenerator._normalize_text` (feedback_generator.py 463-477)

`_normalize_text` lowercases the text, deletes every character matching
`[^\w\s]`, collapses `\s+` runs to single spaces, and strips.  The regex
classes and `str.lower` are modelled over their ASCII fragments (the
analyzer's transcriptions and exercise texts are ASCII). -/

/-- ASCII whitespace of Python's regex class `\s`. -/
def isPySpace (c : Char) : Bool :=
  c == ' ' || c == '\t' || c == '\n' || c == '\r' || c == '\x0b' || c == '\x0c'

/-- ASCII fragment of Python's regex class `\w`: letters, digits, underscore. -/
def isPyWord (c : Char) : Bool := c.isAlphanum || c == '_'

/-- ASCII fragment of Python's `str.lower`: map `A`-`Z` (code points 65-90)
to the corresponding lowercase letter. -/
def pyLower (c : Char) : Char :=
  if 65 ≤ c.toNat ∧ c.toNat ≤ 90 then Char.ofNat (c.toNat + 32) else c

/-- A character kept by `re.sub(r'[^\w\s]', '', ·)`. -/
def keepChar (c : Char) : Bool := isPyWord c || isPySpace c

/-- Model of `re.sub(r'\s+', ' ', ·)`, stage 1: every whitespace character
becomes a plain space. -/
def blankify (c : Char) : Char := if isPySpace c then ' ' else c

/-- Model of `re.sub(r'\s+', ' ', ·)`, stage 2: merge adjacent spaces. -/
def squeeze : List Char → List Char
  | [] => []
  | [c] => [c]
  | c :: d :: rest =>
    if c = ' ' ∧ d = ' ' then squeeze (d :: rest) else c :: squeeze (d :: rest)

/-- Model of `re.sub(r'\s+', ' ', ·)`: replace every maximal whitespace run
by a single space. -/
def collapseWS (l : List Char) : List Char := squeeze (l.map blankify)

/-- Remove trailing Python whitespace (the right half of `str.strip`). -/
def dropTrailWS : List Char → List Char
  | [] => []
  | c :: cs =>
    let rest := dropTrailWS cs
    if rest = [] ∧ isPySpace c then [] else c :: rest

/-- Python `str.strip()`: drop leading and trailing whitespace. -/
def pyStrip (l : List Char) : List Char :=
  dropTrailWS (l.dropWhile (fun c => isPySpace c))

/-- Body of `_normalize_text` on the character list of the input string. -/
def normalizeChars (l : List Char) : List Char :=
  pyStrip (collapseWS ((l.map pyLower).filter keepChar))

/-- Source method `_normalize_text`. -/
def normalize_text (s : String) : String := ⟨normalizeChars s.data⟩

/-- Python `str.split()` helper: accumulate the current word in reverse. -/
def splitAux : List Char → List Char → List (List Char)
  | [], acc => if acc = [] then [] else [acc.reverse]
  | c :: cs, acc =>
    if isPySpace c then
      if acc = [] then splitAux cs [] else acc.reverse :: splitAux cs []
    else splitAux cs (c :: acc)

/-- Python `str.split()` (no separator): maximal non-whitespace runs. -/
def splitWords (l : List Char) : List (List Char) := splitAux l []

/-! ## `difflib.SequenceMatcher(None, a, b).ratio()`

`_evaluate_content_accuracy` computes
`SequenceMatcher(None, trans_norm, target_norm).ratio()`.  `ratio()` is
`2*M/T` where `T` is the total length of the two sequences and `M` the
total size of the matching blocks found by the recursive
Ratcliff-Obershelp decomposition: repeatedly take the longest matching
block (documented tie-break: of all maximal blocks the one starting
earliest in `a`, then earliest in `b`) and recurse on the pieces to its
left and to its right.  With no junk function the block-extension phase
of `find_longest_match` is a no-op, so the longest block is exactly the
`(i, j)` pair maximising the common prefix length of the suffixes.  The
autojunk heuristic (which discards popular elements when the second
sequence has length ≥ 200) is not modelled; theorems that quantify over
all strings restrict the target to length < 200 where this matters. -/

/-- Length of the longest common prefix of two character lists. -/
def commonPrefixLen : List Char → List Char → Nat
  | a :: as, b :: bs => if a = b then commonPrefixLen as bs + 1 else 0
  | _, _ => 0

/-- All `(i, j, size)` triples: the matching run starting at `a[i:]`/`b[j:]`. -/
def lmCandidates (a b : List Char) : List (Nat × Nat × Nat) :=
  (List.range a.length).flatMap fun i =>
    (List.range b.length).map fun j => (i, j, commonPrefixLen (a.drop i) (b.drop j))

/-- Model of `find_longest_match` over the full sequences: the first candidate (in
`(i, j)` lexicographic order) of maximal size, `(0, 0, 0)` when there is no
match — difflib's documented result. -/
def lmBest (a b : List Char) : Nat × Nat × Nat :=
  (lmCandidates a b).foldl (fun best c => if best.2.2 < c.2.2 then c else best) (0, 0, 0)

/-- Fuel-bounded Ratcliff-Obershelp decomposition: take the longest block,
then recurse on the pieces to its left and right.  Every recursive call
strictly decreases `a.length + b.length` (the block size is at least 1, see
`lmBest_spec`), so fuel `a.length + b.length` never runs out: when the fuel
hits 0 both pieces are empty and the match size is 0 anyway.  The explicit
fuel keeps the definition structurally recursive and kernel-evaluable. -/
def matchTotalF : Nat → List Char → List Char → Nat
  | 0, _, _ => 0
  | fuel + 1, a, b =>
    if (lmBest a b).2.2 = 0 then 0
    else
      (lmBest a b).2.2 +
        matchTotalF fuel (a.take (lmBest a b).1) (b.take (lmBest a b).2.1) +
        matchTotalF fuel (a.drop ((lmBest a b).1 + (lmBest a b).2.2))
          (b.drop ((lmBest a b).2.1 + (lmBest a b).2.2))

/-- Total size `M` of the matching blocks of the Ratcliff-Obershelp
decomposition. -/
def matchTotal (a b : List Char) : Nat := matchTotalF (a.length + b.length) a b

/-- Source `SequenceMatcher.ratio()`: `2.0 * matches / length`, and `1.0` when
`length == 0` (difflib `_calculate_ratio`). -/
def sm_ratio (a b : List Char) : ℚ :=
  if a.length + b.length = 0 then 1
  else 2 * (matchTotal a b : ℚ) / ((a.length : ℚ) + (b.length : ℚ))

/-! ## `FeedbackGenerator._evaluate_content_accuracy`
    (feedback_generator.py 417-461) -/

/-- The optional report block returned by `_evaluate_content_accuracy`
(`benchmark_accuracy` is added only on the comparative path). -/
structure ContentAccuracy where
  accuracy_score : ℤ
  feedback : String
  missing_words : List String
  added_words : List String
  benchmark_accuracy : Option ℤ := none
deriving DecidableEq

/-- Source: `SequenceMatcher(None, trans_norm, target_norm).ratio()`. -/
def similarity (transcription target_text : String) : ℚ :=
  sm_ratio (normalizeChars transcription.data) (normalizeChars target_text.data)

/-- Source: `accuracy_score = int(similarity * 100)`; Python `int()` truncates toward
zero, and the ratio is non-negative, so this is the floor. -/
def accuracy_score (transcription target_text : String) : ℤ :=
  ⌊similarity transcription target_text * 100⌋

/-- Source method `_evaluate_content_accuracy`.  The Python `set` differences
are modelled as duplicate-free lists; the claims about them are
order-independent (the source itself documents no order for `list(set)`).
`list(missing)[:10] if len(missing) > 10 else list(missing)` is `take 10`
in both branches. -/
def evaluate_content_accuracy (transcription target_text : String) : ContentAccuracy :=
  let trans_words := (splitWords (normalizeChars transcription.data)).map
    (fun w => (⟨w⟩ : String))
  let target_words := (splitWords (normalizeChars target_text.data)).map
    (fun w => (⟨w⟩ : String))
  let missing_words := (target_words.filter (fun w => decide (w ∉ trans_words))).dedup
  let added_words := (trans_words.filter (fun w => decide (w ∉ target_words))).dedup
  let score := accuracy_score transcription target_text
  let feedback :=
    if score ≥ 90 then
      "Your content was delivered with excellent accuracy, closely matching the intended text."
    else if score ≥ 70 then
      "Your content was delivered with good accuracy, though some words were missed or added."
    else if score ≥ 50 then
      "Your content had moderate accuracy. Pay attention to key words that were missed."
    else
      "Your content had significant deviations from the intended text. Focus on delivering the key points accurately."
  { accuracy_score := score
    feedback := feedback
    missing_words := missing_words.take 10
    added_words := added_words.take 10 }

/-! ## `FeedbackGenerator` report assembly (feedback_generator.py 4-415) -/

/-- Python `.replace('_', ' ')` on the emotion labels used by the source. -/
def pyReplaceUnderscore (s : String) : String :=
  ⟨s.data.map (fun c => if c = '_' then ' ' else c)⟩

/-- Python `str.capitalize()` (ASCII fragment): first character uppercased,
the rest lowercased. -/
def pyCapitalize (s : String) : String :=
  match s.data with
  | [] => ⟨[]⟩
  | c :: cs => ⟨c.toUpper :: cs.map pyLower⟩

/-- Source: `primary_emotion.replace('_', ' ').capitalize()`. -/
def fmtEmotion (e : String) : String := pyCapitalize (pyReplaceUnderscore e)

/-- Values of `self.thresholds` from `FeedbackGenerator.__init__`. -/
def th_pitch_low : ℚ := 15

def th_pitch_medium : ℚ := 30

def th_pitch_high : ℚ := 40

def th_energy_low : ℚ := 3/100

def th_energy_medium : ℚ := 6/100

def th_energy_high : ℚ := 1/10

def th_rate_too_slow : ℚ := 2

def th_rate_slow : ℚ := 5/2

def th_rate_optimal_low : ℚ := 3

def th_rate_optimal_high : ℚ := 4

def th_rate_fast : ℚ := 9/2

def th_rate_too_fast : ℚ := 5

def th_pause_low : ℚ := 1/10

def th_pause_medium : ℚ := 3/20

def th_pause_high : ℚ := 1/4

def th_pause_excessive : ℚ := 7/20

/-- Source method `_generate_overall_assessment`. -/
def generate_overall_assessment (expressiveness pitch_var energy_var speech_rate : ℚ)
    (primary_emotion : String) : String :=
  let expressiveness_level :=
    if expressiveness ≥ 80 then "very expressive"
    else if expressiveness ≥ 60 then "expressive"
    else if expressiveness ≥ 40 then "moderately expressive"
    else if expressiveness ≥ 20 then "somewhat flat"
    else "monotonous"
  let pitch_desc :=
    if pitch_var ≥ th_pitch_high then "varied pitch"
    else if pitch_var ≥ th_pitch_medium then "good pitch variation"
    else if pitch_var ≥ th_pitch_low then "limited pitch variation"
    else "monotonous pitch"
  let energy_desc :=
    if energy_var ≥ th_energy_high then "dynamic volume"
    else if energy_var ≥ th_energy_medium then "good volume variation"
    else if energy_var ≥ th_energy_low then "limited volume variation"
    else "flat volume"
  let pace_desc :=
    if speech_rate < th_rate_too_slow then "very slow pace"
    else if speech_rate < th_rate_slow then "slow pace"
    else if speech_rate ≥ th_rate_too_fast then "very fast pace"
    else if speech_rate ≥ th_rate_fast then "fast pace"
    else "good pace"
  let emotion := fmtEmotion primary_emotion
  "Your speech was " ++ expressiveness_level ++ ", with " ++ pitch_desc ++ " and " ++
    energy_desc ++ ", delivered at a " ++ pace_desc ++ ". " ++
    "Your delivery primarily conveyed a " ++ emotion ++ " tone."

/-- Source method `_generate_specific_feedback`: six sentences, one per
dimension, in the source's append order. -/
def generate_specific_feedback (pitch_var energy_var speech_rate pause_ratio
    emphasis_ratio : ℚ) (primary_emotion : String) : List String :=
  [if pitch_var ≥ th_pitch_high then
      "Your pitch variation was excellent, creating an engaging and dynamic delivery."
    else if pitch_var ≥ th_pitch_medium then
      "You demonstrated good pitch variation, which helped maintain listener interest."
    else if pitch_var ≥ th_pitch_low then
      "Your pitch variation was adequate but could be improved to create a more engaging delivery."
    else
      "Your speech had limited pitch variation, which may come across as monotonous.",
   if energy_var ≥ th_energy_high then
      "Your volume dynamics were excellent, effectively emphasizing important points."
    else if energy_var ≥ th_energy_medium then
      "You showed good volume variation, which helped highlight key parts of your speech."
    else if energy_var ≥ th_energy_low then
      "Your volume variation was moderate. Consider using more dynamic volume to emphasize important points."
    else
      "Your speech had limited volume variation, which may reduce impact and engagement.",
   if speech_rate < th_rate_too_slow then
      "Your speaking pace was very slow, which might cause listeners to lose interest."
    else if speech_rate < th_rate_slow then
      "Your speaking pace was somewhat slow. Consider speaking slightly faster for more engagement."
    else if speech_rate ≥ th_rate_too_fast then
      "Your speaking pace was very fast, which might make it difficult for listeners to follow."
    else if speech_rate ≥ th_rate_fast then
      "Your speaking pace was somewhat fast. Consider slowing down slightly for better clarity."
    else
      "Your speaking pace was well-balanced, making it easy for listeners to follow.",
   if pause_ratio ≥ th_pause_excessive then
      "You had too many pauses in your speech, which might disrupt the flow."
    else if pause_ratio ≥ th_pause_high then
      "You used pauses effectively to emphasize key points."
    else if pause_ratio ≥ th_pause_medium then
      "Your use of pauses was balanced, creating a natural speaking rhythm."
    else if pause_ratio ≥ th_pause_low then
      "You had few pauses in your speech. Strategic pauses can help emphasize important points."
    else
      "You had very few pauses, which might make your speech feel rushed.",
   if emphasis_ratio ≥ 1/10 then
      "You emphasized key points effectively, which helps maintain listener attention."
    else if emphasis_ratio ≥ 1/20 then
      "You used some emphasis in your speech, which helps highlight important information."
    else
      "Your speech had limited emphasis. Consider emphasizing key points more to increase impact.",
   "Your speech primarily conveyed a " ++ fmtEmotion primary_emotion ++
     " tone, which may affect how your message is received."]

/-- Source method `_identify_strengths`. -/
def identify_strengths (pitch_var energy_var speech_rate pause_ratio emphasis_ratio : ℚ)
    (primary_emotion : String) : List String :=
  let strengths :=
    (if pitch_var ≥ th_pitch_medium then
      ["Good pitch variation that creates an engaging delivery"] else []) ++
    (if energy_var ≥ th_energy_medium then
      ["Effective use of volume variation to emphasize points"] else []) ++
    (if th_rate_optimal_low ≤ speech_rate ∧ speech_rate ≤ th_rate_optimal_high then
      ["Well-balanced speaking pace that is easy to follow"] else []) ++
    (if th_pause_medium ≤ pause_ratio ∧ pause_ratio ≤ th_pause_high then
      ["Strategic use of pauses to emphasize key points"] else []) ++
    (if emphasis_ratio ≥ 1/20 then
      ["Good emphasis on important information"] else []) ++
    (if primary_emotion ∈ ["confident", "joy", "enthusiasm"] then
      [fmtEmotion primary_emotion ++ " tone that enhances your message"] else [])
  if strengths = [] then
    ["Consistent delivery that provides a foundation to build upon"]
  else strengths

/-- Source method `_generate_improvement_suggestions`. -/
def generate_improvement_suggestions (pitch_var energy_var speech_rate pause_ratio
    emphasis_ratio : ℚ) (primary_emotion : String) : List String :=
  let suggestions :=
    (if pitch_var < th_pitch_medium then
      ["Vary your pitch more to make your delivery more engaging"] else []) ++
    (if energy_var < th_energy_medium then
      ["Use more dynamic volume to emphasize important points"] else []) ++
    (if speech_rate < th_rate_optimal_low then
      ["Increase your speaking pace slightly to maintain listener interest"]
    else if speech_rate > th_rate_optimal_high then
      ["Slow down your speaking pace slightly for better clarity"] else []) ++
    (if pause_ratio < th_pause_medium then
      ["Use strategic pauses to emphasize key points and give listeners time to absorb information"]
    else if pause_ratio > th_pause_high then
      ["Reduce the number of pauses to maintain better flow in your speech"] else []) ++
    (if emphasis_ratio < 1/20 then
      ["Emphasize key points more to increase impact and highlight important information"] else []) ++
    (if primary_emotion ∈ ["neutral", "sadness", "fear"] then
      ["Try to convey more enthusiasm and confidence in your delivery"] else [])
  if suggestions = [] then
    ["Practice with different styles to further enhance your already strong delivery"]
  else suggestions

/-! ## `FeedbackGenerator._generate_comparison` (feedback_generator.py 479-588)

The sentences appended to the four comparison lists are represented by the
constructors of `Msg`; each constructor stands for one sentence template of
the source, carrying the values that the source interpolates into it. -/

/-- One sentence of the comparison lists. -/
inductive Msg where
  | exprComparable (ue be : ℚ)
  | exprExceeds
  | exprMatches
  | exprLower (ue be : ℚ)
  | exprImprove
  | pitchMatch
  | pitchControlled
  | pitchEngage
  | pitchIncrease
  | energyMatch
  | energyControlled
  | energyPronounced
  | energyIncrease
  | rateMatch
  | rateSlowDown
  | rateFaster (usr bsr : ℚ)
  | rateSpeedUp
  | rateSlower (usr bsr : ℚ)
  | pauseMatch
  | pauseReduce
  | pauseMore
  | pauseStrategic
  | pauseFewer
  | emotionMatch (e : String)
  | emotionDiffers (ue be : String)
  | emotionConvey (be : String)
deriving DecidableEq

/-- The dictionary returned by `_generate_comparison`. -/
structure Comparison where
  general : List Msg
  strengths : List Msg
  improvements : List Msg
  matches' : List Msg
deriving DecidableEq

/-- The contribution of a single compared dimension to the four lists. -/
structure DimComparison where
  general : List Msg := []
  strengths : List Msg := []
  improvements : List Msg := []
  matches' : List Msg := []

/-- Source method `_generate_comparison`.  Appends happen dimension by
dimension (expressiveness, pitch, energy, rate, pauses, emotion), so each
output list is the concatenation of the per-dimension contributions in that
order, exactly as the source's interleaved `append` calls produce it. -/
def generate_comparison (user_pitch_var user_energy_var user_speech_rate
    user_pause_ratio user_emphasis_ratio : ℚ) (user_primary_emotion : String)
    (user_expressiveness : ℚ)
    (benchmark_pitch_var benchmark_energy_var benchmark_speech_rate
    benchmark_pause_ratio benchmark_emphasis_ratio : ℚ)
    (benchmark_primary_emotion : String) (benchmark_expressiveness : ℚ) :
    Comparison :=
  let expr : DimComparison :=
    if user_expressiveness ≥ benchmark_expressiveness * (9/10) then
      if user_expressiveness > benchmark_expressiveness then
        { general := [.exprComparable user_expressiveness benchmark_expressiveness],
          strengths := [.exprExceeds] }
      else
        { general := [.exprComparable user_expressiveness benchmark_expressiveness],
          matches' := [.exprMatches] }
    else
      { general := [.exprLower user_expressiveness benchmark_expressiveness],
        improvements := [.exprImprove] }
  let pitch : DimComparison :=
    let pitch_diff := |user_pitch_var - benchmark_pitch_var|
    let pitch_diff_percent :=
      if benchmark_pitch_var > 0 then pitch_diff / benchmark_pitch_var else 0
    if pitch_diff_percent ≤ 1/5 then { matches' := [.pitchMatch] }
    else if user_pitch_var > benchmark_pitch_var then
      if user_pitch_var > th_pitch_high ∧ benchmark_pitch_var < th_pitch_high then
        { improvements := [.pitchControlled] }
      else { strengths := [.pitchEngage] }
    else { improvements := [.pitchIncrease] }
  let energy : DimComparison :=
    let energy_diff := |user_energy_var - benchmark_energy_var|
    let energy_diff_percent :=
      if benchmark_energy_var > 0 then energy_diff / benchmark_energy_var else 0
    if energy_diff_percent ≤ 1/5 then { matches' := [.energyMatch] }
    else if user_energy_var > benchmark_energy_var then
      if user_energy_var > th_energy_high ∧ benchmark_energy_var < th_energy_high then
        { improvements := [.energyControlled] }
      else { strengths := [.energyPronounced] }
    else { improvements := [.energyIncrease] }
  let rate : DimComparison :=
    let rate_diff := |user_speech_rate - benchmark_speech_rate|
    let rate_diff_percent :=
      if benchmark_speech_rate > 0 then rate_diff / benchmark_speech_rate else 0
    if rate_diff_percent ≤ 1/10 then { matches' := [.rateMatch] }
    else if user_speech_rate > benchmark_speech_rate then
      if benchmark_speech_rate < th_rate_optimal_high ∧
          user_speech_rate > th_rate_optimal_high then
        { improvements := [.rateSlowDown] }
      else { general := [.rateFaster user_speech_rate benchmark_speech_rate] }
    else
      if benchmark_speech_rate > th_rate_optimal_low ∧
          user_speech_rate < th_rate_optimal_low then
        { improvements := [.rateSpeedUp] }
      else { general := [.rateSlower user_speech_rate benchmark_speech_rate] }
  let pause : DimComparison :=
    let pause_diff := |user_pause_ratio - benchmark_pause_ratio|
    let pause_diff_percent :=
      if benchmark_pause_ratio > 0 then pause_diff / benchmark_pause_ratio else 0
    if pause_diff_percent ≤ 1/5 then { matches' := [.pauseMatch] }
    else if user_pause_ratio > benchmark_pause_ratio then
      if user_pause_ratio > th_pause_high ∧ benchmark_pause_ratio < th_pause_high then
        { improvements := [.pauseReduce] }
      else { general := [.pauseMore] }
    else
      if benchmark_pause_ratio > th_pause_medium ∧
          user_pause_ratio < th_pause_medium then
        { improvements := [.pauseStrategic] }
      else { general := [.pauseFewer] }
  let emotion : DimComparison :=
    if user_primary_emotion = benchmark_primary_emotion then
      { matches' := [.emotionMatch (fmtEmotion user_primary_emotion)] }
    else
      if benchmark_primary_emotion ∈ ["confident", "joy", "enthusiasm"] ∧
          user_primary_emotion ∉ ["confident", "joy", "enthusiasm"] then
        { general := [.emotionDiffers (fmtEmotion user_primary_emotion)
            (fmtEmotion benchmark_primary_emotion)],
          improvements := [.emotionConvey (fmtEmotion benchmark_primary_emotion)] }
      else
        { general := [.emotionDiffers (fmtEmotion user_primary_emotion)
            (fmtEmotion benchmark_primary_emotion)] }
  { general := expr.general ++ pitch.general ++ energy.general ++ rate.general ++
      pause.general ++ emotion.general
    strengths := expr.strengths ++ pitch.strengths ++ energy.strengths ++
      rate.strengths ++ pause.strengths ++ emotion.strengths
    improvements := expr.improvements ++ pitch.improvements ++ energy.improvements ++
      rate.improvements ++ pause.improvements ++ emotion.improvements
    matches' := expr.matches' ++ pitch.matches' ++ energy.matches' ++ rate.matches' ++
      pause.matches' ++ emotion.matches' }

/-! ## `FeedbackGenerator._generate_comparative_assessment`
    (feedback_generator.py 590-653) -/

/-- Source `similarity_factors` of `_generate_comparative_assessment`, verbatim:
the expressiveness factor is a capped ratio, the three difference factors
are `1 - min(|diff|/benchmark, 1)`, the emotion factor is `1.0` on equality
and `0.5` otherwise; each numeric factor falls back to `0.5` when its
benchmark value is not positive. -/
def similarity_factors (ue be upv bpv uev bev usr bsr : ℚ)
    (uemo bemo : String) : List ℚ :=
  [if be > 0 then min (ue / be) 1 else 1/2,
   if bpv > 0 then 1 - min (|upv - bpv| / bpv) 1 else 1/2,
   if bev > 0 then 1 - min (|uev - bev| / bev) 1 else 1/2,
   if bsr > 0 then 1 - min (|usr - bsr| / bsr) 1 else 1/2,
   if uemo = bemo then 1 else 1/2]

/-- Source: `similarity_score = sum(similarity_factors) / len(similarity_factors) * 100`. -/
def similarity_score (ue be upv bpv uev bev usr bsr : ℚ)
    (uemo bemo : String) : ℚ :=
  (similarity_factors ue be upv bpv uev bev usr bsr uemo bemo).sum /
    ((similarity_factors ue be upv bpv uev bev usr bsr uemo bemo).length : ℚ) * 100

/-- The four template sentences the assessment can start with. -/
inductive SimTier where
  | verySimilar
  | manySimilarities
  | someShared
  | differsSignificantly
deriving DecidableEq

/-- The expressiveness clause appended after the tier sentence. -/
inductive ExprClause where
  | exceeds
  | closelyMatches
  | benchmarkHigher
deriving DecidableEq

/-- The pace clause. -/
inductive PaceClause where
  | matchesWell
  | faster
  | slower
deriving DecidableEq

/-- The emotion clause. -/
inductive EmotionClause where
  | same (e : String)
  | differs (ue be : String)
deriving DecidableEq

/-- The assessment string of `_generate_comparative_assessment`, as its
parts: the similarity percentage interpolated into the tier sentence, then
the three fixed-order clauses.  (Only the decimal formatting of the
percentage is abstracted away.) -/
structure CompAssessment where
  similarity_score : ℚ
  tier : SimTier
  expr_clause : ExprClause
  pace_clause : PaceClause
  emotion_clause : EmotionClause
deriving DecidableEq

/-- Source method `_generate_comparative_assessment`. -/
def generate_comparative_assessment (user_expressiveness benchmark_expressiveness
    user_pitch_var benchmark_pitch_var user_energy_var benchmark_energy_var
    user_speech_rate benchmark_speech_rate : ℚ)
    (user_primary_emotion benchmark_primary_emotion : String) : CompAssessment :=
  let s := similarity_score user_expressiveness benchmark_expressiveness
    user_pitch_var benchmark_pitch_var user_energy_var benchmark_energy_var
    user_speech_rate benchmark_speech_rate
    user_primary_emotion benchmark_primary_emotion
  { similarity_score := s
    tier :=
      if s ≥ 80 then .verySimilar
      else if s ≥ 60 then .manySimilarities
      else if s ≥ 40 then .someShared
      else .differsSignificantly
    expr_clause :=
      if user_expressiveness ≥ benchmark_expressiveness * (9/10) then
        if user_expressiveness > benchmark_expressiveness then .exceeds
        else .closelyMatches
      else .benchmarkHigher
    pace_clause :=
      if |user_speech_rate - benchmark_speech_rate| ≤ 1/2 then .matchesWell
      else if user_speech_rate > benchmark_speech_rate then .faster
      else .slower
    emotion_clause :=
      if user_primary_emotion = benchmark_primary_emotion then
        .same (pyReplaceUnderscore user_primary_emotion)
      else .differs (fmtEmotion user_primary_emotion)
        (fmtEmotion benchmark_primary_emotion) }

/-! ## `FeedbackGenerator.generate` and `generate_comparative`
    (feedback_generator.py 38-175) -/

/-- The `analysis_results` dictionary: `none` models an absent key, so
`.getD` is Python's `.get(key, default)`. -/
structure AnalysisResults where
  pitch_variability : Option ℚ := none
  energy_variability : Option ℚ := none
  speech_rate : Option ℚ := none
  pause_ratio : Option ℚ := none
  emphasis_ratio : Option ℚ := none
  primary_emotion : Option String := none
  transcription : Option String := none
  expressiveness_score : Option ℚ := none
deriving DecidableEq

/-- A value of the returned feedback dictionary. -/
inductive FVal where
  | s (text : String)
  | ls (items : List String)
  | acc (value : ContentAccuracy)
  | cmp (value : Comparison)
  | assess (value : CompAssessment)
deriving DecidableEq

/-- Python truthiness of the optional `target_text` argument (`None` and the
empty string are falsy). -/
def pyTruthy (o : Option String) : Bool :=
  match o with
  | none => false
  | some s => s ≠ ""

/-- Source method `FeedbackGenerator.generate`, returning the feedback
dictionary as an association list in insertion order. -/
def generate (r : AnalysisResults) (target_text : Option String) :
    List (String × FVal) :=
  let pitch_var := r.pitch_variability.getD 0
  let energy_var := r.energy_variability.getD 0
  let speech_rate := r.speech_rate.getD 0
  let pause_ratio := r.pause_ratio.getD 0
  let emphasis_ratio := r.emphasis_ratio.getD 0
  let primary_emotion := r.primary_emotion.getD "neutral"
  let transcription := r.transcription.getD ""
  let expressiveness := r.expressiveness_score.getD 0
  let overall_assessment := generate_overall_assessment expressiveness pitch_var
    energy_var speech_rate primary_emotion
  let specific_feedback := generate_specific_feedback pitch_var energy_var
    speech_rate pause_ratio emphasis_ratio primary_emotion
  let strengths := identify_strengths pitch_var energy_var speech_rate
    pause_ratio emphasis_ratio primary_emotion
  let improvement_suggestions := generate_improvement_suggestions pitch_var
    energy_var speech_rate pause_ratio emphasis_ratio primary_emotion
  let content_accuracy : Option ContentAccuracy :=
    if pyTruthy target_text ∧ transcription ≠ "" then
      some (evaluate_content_accuracy transcription (target_text.getD ""))
    else none
  [("overall_assessment", FVal.s overall_assessment),
   ("specific_feedback", FVal.ls specific_feedback),
   ("strengths", FVal.ls strengths),
   ("improvement_suggestions", FVal.ls improvement_suggestions)] ++
    (match content_accuracy with
     | some ca => [("content_accuracy", FVal.acc ca)]
     | none => [])

/-- Python `user_feedback.get(key, [])` for list-of-strings values. -/
def lookupStrList (fb : List (String × FVal)) (k : String) : List String :=
  match fb.find? (fun p => p.1 == k) with
  | some (_, FVal.ls l) => l
  | _ => []

/-- Source method `FeedbackGenerator.generate_comparative`.  The benchmark
argument is `none` for Python `None`; a benchmark equal to `{}` (every key
absent) is Python's empty dictionary, which `if not benchmark_analysis`
also treats as absent. -/
def generate_comparative (user_analysis : AnalysisResults)
    (benchmark_analysis : Option AnalysisResults) (target_text : Option String) :
    List (String × FVal) :=
  let user_feedback := generate user_analysis target_text
  match benchmark_analysis with
  | none => user_feedback
  | some bm =>
    if bm = ({} : AnalysisResults) then user_feedback
    else
      let user_pitch_var := user_analysis.pitch_variability.getD 0
      let user_energy_var := user_analysis.energy_variability.getD 0
      let user_speech_rate := user_analysis.speech_rate.getD 0
      let user_pause_ratio := user_analysis.pause_ratio.getD 0
      let user_emphasis_ratio := user_analysis.emphasis_ratio.getD 0
      let user_primary_emotion := user_analysis.primary_emotion.getD "neutral"
      let user_expressiveness := user_analysis.expressiveness_score.getD 0
      let user_transcription := user_analysis.transcription.getD ""
      let benchmark_pitch_var := bm.pitch_variability.getD 0
      let benchmark_energy_var := bm.energy_variability.getD 0
      let benchmark_speech_rate := bm.speech_rate.getD 0
      let benchmark_pause_ratio := bm.pause_ratio.getD 0
      let benchmark_emphasis_ratio := bm.emphasis_ratio.getD 0
      let benchmark_primary_emotion := bm.primary_emotion.getD "neutral"
      let benchmark_expressiveness := bm.expressiveness_score.getD 0
      let benchmark_transcription := bm.transcription.getD ""
      let comparison := generate_comparison
        user_pitch_var user_energy_var user_speech_rate user_pause_ratio
        user_emphasis_ratio user_primary_emotion user_expressiveness
        benchmark_pitch_var benchmark_energy_var benchmark_speech_rate
        benchmark_pause_ratio benchmark_emphasis_ratio benchmark_primary_emotion
        benchmark_expressiveness
      let overall_assessment := generate_comparative_assessment
        user_expressiveness benchmark_expressiveness
        user_pitch_var benchmark_pitch_var
        user_energy_var benchmark_energy_var
        user_speech_rate benchmark_speech_rate
        user_primary_emotion benchmark_primary_emotion
      let content_accuracy : Option ContentAccuracy :=
        if pyTruthy target_text ∧ user_transcription ≠ "" then
          let user_accuracy := evaluate_content_accuracy user_transcription
            (target_text.getD "")
          if benchmark_transcription ≠ "" then
            let benchmark_accuracy := evaluate_content_accuracy
              benchmark_transcription (target_text.getD "")
            some { user_accuracy with
              benchmark_accuracy := some benchmark_accuracy.accuracy_score
              feedback := user_accuracy.feedback ++
                (if user_accuracy.accuracy_score ≥ benchmark_accuracy.accuracy_score
                then
                  " Your content accuracy is similar to or better than the benchmark recording."
                else
                  " The benchmark recording has higher content accuracy. Pay attention to the missing words in your delivery.") }
          else some user_accuracy
        else none
      [("overall_assessment", FVal.assess overall_assessment),
       ("comparison", FVal.cmp comparison),
       ("specific_feedback", FVal.ls (lookupStrList user_feedback "specific_feedback")),
       ("improvement_suggestions",
        FVal.ls (lookupStrList user_feedback "improvement_suggestions"))] ++
        (match content_accuracy with
         | some ca => [("content_accuracy", FVal.acc ca)]
         | none => [])

/-- Test descriptor set used by several concrete evaluations: the all-zero /
neutral input of the degenerate-input scenario (`pause_ratio` 1). -/
def X0 : AnalysisResults :=
  { pitch_variability := some 0, energy_variability := some 0,
    speech_rate := some 0, pause_ratio := some 1, emphasis_ratio := some 0,
    primary_emotion := some "neutral" }

/-- The all-zero descriptor set carrying the transcription-failure sentinel. -/
def XF : AnalysisResults := { X0 with transcription := some "Transcription failed" }

/-- The composite similarity as the claim words it, for comparison: every
numeric factor, the expressiveness one included, is given the difference
form `1 − min(|user − benchmark| / benchmark, 1)`. -/
def claimed_similarity_score (ue be upv bpv uev bev usr bsr : ℚ)
    (uemo bemo : String) : ℚ :=
  ([if be > 0 then 1 - min (|ue - be| / be) 1 else 1/2,
    if bpv > 0 then 1 - min (|upv - bpv| / bpv) 1 else 1/2,
    if bev > 0 then 1 - min (|uev - bev| / bev) 1 else 1/2,
    if bsr > 0 then 1 - min (|usr - bsr| / bsr) 1 else 1/2,
    if uemo = bemo then 1 else 1/2] : List ℚ).sum / 5 * 100

theorem pitch_score_mono {a b : ℚ} (h : a ≤ b) : pitch_score a ≤ pitch_score b := by
  unfold pitch_score
  gcongr

theorem energy_score_mono {a b : ℚ} (h : a ≤ b) : energy_score a ≤ energy_score b := by
  unfold energy_score
  gcongr

theorem score_clamp_mono {w1 w2 : ℚ} (h : w1 ≤ w2) :
    min 100 (max 0 (w1 * 100)) ≤ min 100 (max 0 (w2 * 100)) :=
  min_le_min le_rfl (max_le_max le_rfl (by gcongr))

/-- C1 counterexample: the claim asserts the piecewise branch values of
`rate_score` agree at the boundaries 2.0 and 5.0.  They do not: at 2.0 the
low branch gives 1.0 while the middle branch (the one actually taken) gives
0.0, and the function itself jumps from 199/200 at 1.99 to 0 at 2.0. -/
theorem rate_score_boundary_mismatch :
    rate_score_low 2 = 1 ∧ rate_score_mid 2 = 0 ∧
    rate_score_low 2 ≠ rate_score_mid 2 ∧
    rate_score (199/100) = 199/200 ∧ rate_score 2 = 0 := by
  refine ⟨by norm_num [rate_score_low], ?_, ?_, ?_, ?_⟩ <;>
    norm_num [rate_score_low, rate_score_mid, rate_score, rate_score_high, abs]

/-- C1 (amended): `rate_score 3.5 = 1` exactly and `rate_score 0 = 0`, but
`rate_score` is not continuous at the branch boundaries.  At both 2.0 and
5.0 the middle branch is the one taken (`speech_rate < 2.0` and
`speech_rate > 5.0` are false there) and it evaluates to 0, so
`rate_score 2 = 0` and `rate_score 5 = 0`; the untaken neighbouring
branches evaluate to 1.0 at those points (the low branch at 2.0, the high
branch at 5.0), and just across each boundary the function is near 1:
`rate_score 1.99 = 199/200` and `rate_score 5.01 = 299/300` — jump
discontinuities of magnitude about 1 at both boundaries. -/
theorem rate_score_peak_and_jumps :
    rate_score (7/2) = 1 ∧ rate_score 0 = 0 ∧
    rate_score 2 = 0 ∧ rate_score_low 2 = 1 ∧
    rate_score 5 = 0 ∧ rate_score_high 5 = 1 ∧
    rate_score (199/100) = 199/200 ∧ rate_score (501/100) = 299/300 := by
  refine ⟨?_, ?_, ?_, ?_, ?_, ?_, ?_, ?_⟩ <;>
    norm_num [rate_score, rate_score_low, rate_score_mid, rate_score_high, abs]

/-- C6: the expressiveness score is monotonically non-decreasing in
`pitch_var`, `energy_var` and `emotion_confidence` separately, all other
inputs held fixed, for non-negative values `a ≤ b` of the varied input. -/
theorem expressiveness_mono (a b pv ev sr pr ec : ℚ) (_ha : 0 ≤ a) (hab : a ≤ b) :
    calculate_expressiveness_score a ev sr pr ec ≤
      calculate_expressiveness_score b ev sr pr ec ∧
    calculate_expressiveness_score pv a sr pr ec ≤
      calculate_expressiveness_score pv b sr pr ec ∧
    calculate_expressiveness_score pv ev sr pr a ≤
      calculate_expressiveness_score pv ev sr pr b := by
  have h1 := pitch_score_mono hab
  have h2 := energy_score_mono hab
  simp only [calculate_expressiveness_score]
  exact ⟨score_clamp_mono (by linarith), score_clamp_mono (by linarith),
    score_clamp_mono (by linarith)⟩

theorem pyLower_idem (c : Char) : pyLower (pyLower c) = pyLower c := by
  unfold pyLower
  by_cases h : 65 ≤ c.toNat ∧ c.toNat ≤ 90
  · rw [if_pos h]
    have hn : ¬(65 ≤ (Char.ofNat (c.toNat + 32)).toNat ∧
        (Char.ofNat (c.toNat + 32)).toNat ≤ 90) := by
      obtain ⟨h1, h2⟩ := h
      generalize c.toNat = n at h1 h2 ⊢
      interval_cases n <;> decide
    rw [if_neg hn]
  · rw [if_neg h, if_neg h]

theorem map_fix_of_mem {α : Type} {f : α → α} :
    ∀ {l : List α}, (∀ a ∈ l, f a = a) → l.map f = l
  | [], _ => rfl
  | a :: t, h => by
    simp only [List.map_cons, h a (List.mem_cons_self a t),
      map_fix_of_mem (fun x hx => h x (List.mem_cons_of_mem a hx))]

theorem mem_squeeze : ∀ {l : List Char} {x : Char}, x ∈ squeeze l → x ∈ l
  | [], x, hx => by simp [squeeze] at hx
  | [c], x, hx => by simpa [squeeze] using hx
  | c :: d :: rest, x, hx => by
    rw [squeeze] at hx
    split at hx
    · exact List.mem_cons_of_mem c (mem_squeeze hx)
    · rcases List.mem_cons.mp hx with h | h
      · exact h ▸ List.mem_cons_self c (d :: rest)
      · exact List.mem_cons_of_mem c (mem_squeeze h)

theorem mem_collapseWS {x : Char} {l : List Char} (hx : x ∈ collapseWS l) :
    x = ' ' ∨ (x ∈ l ∧ isPySpace x = false) := by
  have hm : x ∈ l.map blankify := mem_squeeze hx
  obtain ⟨d, hd, hbd⟩ := List.mem_map.mp hm
  by_cases hs : isPySpace d = true
  · left
    rw [← hbd]
    simp [blankify, hs]
  · right
    have hfix : blankify d = d := by simp [blankify, hs]
    rw [← hbd, hfix]
    exact ⟨hd, by simpa using hs⟩

theorem squeeze_head : ∀ (d : Char) (rest : List Char),
    (squeeze (d :: rest)).head? = some d
  | _, [] => rfl
  | d, e :: r => by
    rw [squeeze]
    split
    · rename_i h
      rw [squeeze_head e r, h.2, h.1]
    · simp

theorem chain_squeeze : ∀ l : List Char,
    (squeeze l).Chain' (fun a b => ¬(a = ' ' ∧ b = ' '))
  | [] => by simp [squeeze]
  | [c] => by simp [squeeze]
  | c :: d :: rest => by
    rw [squeeze]
    split
    · exact chain_squeeze (d :: rest)
    · rename_i h
      refine List.chain'_cons'.mpr ⟨?_, chain_squeeze (d :: rest)⟩
      intro y hy
      rw [squeeze_head d rest] at hy
      have hyd : d = y := by simpa using hy
      subst hyd
      exact h

theorem squeeze_eq_self : ∀ {m : List Char},
    m.Chain' (fun a b => ¬(a = ' ' ∧ b = ' ')) → squeeze m = m
  | [], _ => rfl
  | [_], _ => rfl
  | c :: d :: rest, hc => by
    rw [squeeze, if_neg (List.chain'_cons.mp hc).1,
      squeeze_eq_self (List.chain'_cons.mp hc).2]

theorem chain_collapseWS (l : List Char) :
    (collapseWS l).Chain' (fun a b => ¬(a = ' ' ∧ b = ' ')) :=
  chain_squeeze _

theorem collapseWS_eq_self {m : List Char}
    (hb : ∀ c ∈ m, isPySpace c = true → c = ' ')
    (hc : m.Chain' (fun a b => ¬(a = ' ' ∧ b = ' '))) :
    collapseWS m = m := by
  unfold collapseWS
  have hmap : m.map blankify = m := by
    apply map_fix_of_mem
    intro a ha
    by_cases hs : isPySpace a = true
    · have h2 := hb a ha hs
      simp [blankify, hs, h2]
    · simp [blankify, hs]
  rw [hmap, squeeze_eq_self hc]

theorem dropTrailWS_front : ∀ l : List Char, dropTrailWS l <+: l
  | [] => List.nil_prefix
  | c :: cs => by
    rw [dropTrailWS]
    split
    · exact List.nil_prefix
    · obtain ⟨u, hu⟩ := dropTrailWS_front cs
      exact ⟨u, by simp [hu]⟩

theorem dropTrailWS_idem : ∀ l : List Char, dropTrailWS (dropTrailWS l) = dropTrailWS l
  | [] => rfl
  | c :: cs => by
    rw [dropTrailWS]
    split
    · rfl
    · rename_i hcond
      rw [dropTrailWS, dropTrailWS_idem cs]
      simp only [if_neg hcond]

theorem dropWhile_eq_self_of_head {p : Char → Bool} {m : List Char}
    (h : ∀ a t, m = a :: t → p a = false) : m.dropWhile p = m := by
  cases m with
  | nil => rfl
  | cons a t => exact List.dropWhile_cons_of_neg (by simp [h a t rfl])

theorem pyStrip_idem (x : List Char) : pyStrip (pyStrip x) = pyStrip x := by
  unfold pyStrip
  have h1 : (dropTrailWS (x.dropWhile fun c => isPySpace c)).dropWhile
      (fun c => isPySpace c) = dropTrailWS (x.dropWhile fun c => isPySpace c) := by
    apply dropWhile_eq_self_of_head
    intro a t hat
    obtain ⟨u, hu⟩ := dropTrailWS_front (x.dropWhile fun c => isPySpace c)
    rw [hat] at hu
    have hh := List.head?_dropWhile_not (fun c => isPySpace c) x
    rw [← hu] at hh
    simpa using hh
  rw [h1, dropTrailWS_idem]

theorem good_of_mem_normalizeChars {l : List Char} {c : Char}
    (hc : c ∈ normalizeChars l) :
    pyLower c = c ∧ keepChar c = true := by
  have hx : c ∈ collapseWS ((l.map pyLower).filter keepChar) := by
    have h1 : c ∈ (collapseWS ((l.map pyLower).filter keepChar)).dropWhile
        (fun d => isPySpace d) :=
      (dropTrailWS_front _).sublist.subset hc
    exact (List.dropWhile_sublist _).subset h1
  rcases mem_collapseWS hx with h1 | ⟨h2, _⟩
  · subst h1; exact ⟨rfl, rfl⟩
  · have hkeep := List.of_mem_filter h2
    have hmem := List.mem_of_mem_filter h2
    obtain ⟨d, _, hd⟩ := List.mem_map.mp hmem
    exact ⟨hd ▸ pyLower_idem d, hkeep⟩

theorem blank_of_mem_normalizeChars {l : List Char} {c : Char}
    (hc : c ∈ normalizeChars l) (hs : isPySpace c = true) : c = ' ' := by
  have hx : c ∈ collapseWS ((l.map pyLower).filter keepChar) := by
    have h1 : c ∈ (collapseWS ((l.map pyLower).filter keepChar)).dropWhile
        (fun d => isPySpace d) :=
      (dropTrailWS_front _).sublist.subset hc
    exact (List.dropWhile_sublist _).subset h1
  rcases mem_collapseWS hx with h1 | ⟨_, h3⟩
  · exact h1
  · rw [hs] at h3; cases h3

theorem chain_normalizeChars (l : List Char) :
    (normalizeChars l).Chain' (fun a b => ¬(a = ' ' ∧ b = ' ')) := by
  have h1 := chain_collapseWS ((l.map pyLower).filter keepChar)
  have h2 := h1.suffix (List.dropWhile_suffix (fun d => isPySpace d))
  exact h2.prefix (dropTrailWS_front _)

/-- Core of C10: `_normalize_text` is idempotent on character lists. -/
theorem normalizeChars_idem (l : List Char) :
    normalizeChars (normalizeChars l) = normalizeChars l := by
  have hmap : (normalizeChars l).map pyLower = normalizeChars l :=
    map_fix_of_mem (fun a ha => (good_of_mem_normalizeChars ha).1)
  have hfil : (normalizeChars l).filter keepChar = normalizeChars l :=
    List.filter_eq_self.mpr (fun a ha => (good_of_mem_normalizeChars ha).2)
  have hcol : collapseWS (normalizeChars l) = normalizeChars l :=
    collapseWS_eq_self (fun c hc hs => blank_of_mem_normalizeChars hc hs)
      (chain_normalizeChars l)
  show pyStrip (collapseWS (((normalizeChars l).map pyLower).filter keepChar)) =
    normalizeChars l
  rw [hmap, hfil, hcol]
  show pyStrip (pyStrip (collapseWS ((l.map pyLower).filter keepChar))) = _
  rw [pyStrip_idem]
  rfl

theorem commonPrefixLen_le_left (a : List Char) : ∀ b : List Char, commonPrefixLen a b ≤ a.length := by
  induction a with
  | nil => intro b; cases b <;> simp [commonPrefixLen]
  | cons x xs ih =>
    intro b
    cases b with
    | nil => simp [commonPrefixLen]
    | cons y ys =>
      rw [commonPrefixLen]
      split
      · have := ih ys
        simp only [List.length_cons]
        omega
      · simp

theorem commonPrefixLen_le_right (a : List Char) : ∀ b : List Char, commonPrefixLen a b ≤ b.length := by
  induction a with
  | nil => intro b; cases b <;> simp [commonPrefixLen]
  | cons x xs ih =>
    intro b
    cases b with
    | nil => simp [commonPrefixLen]
    | cons y ys =>
      rw [commonPrefixLen]
      split
      · have := ih ys
        simp only [List.length_cons]
        omega
      · simp

theorem foldl_best_mem (l : List (Nat × Nat × Nat)) (init : Nat × Nat × Nat) :
    l.foldl (fun best c => if best.2.2 < c.2.2 then c else best) init = init ∨
      l.foldl (fun best c => if best.2.2 < c.2.2 then c else best) init ∈ l := by
  induction l generalizing init with
  | nil => exact Or.inl rfl
  | cons x t ih =>
    rw [List.foldl_cons]
    rcases ih (if init.2.2 < x.2.2 then x else init) with h | h
    · rw [h]
      split
      · exact Or.inr (List.mem_cons_self x t)
      · exact Or.inl rfl
    · exact Or.inr (List.mem_cons_of_mem x h)

theorem lmBest_spec (a b : List Char) (h : (lmBest a b).2.2 ≠ 0) :
    (lmBest a b).1 < a.length ∧ (lmBest a b).2.1 < b.length ∧
      (lmBest a b).2.2 ≤ a.length - (lmBest a b).1 ∧
      (lmBest a b).2.2 ≤ b.length - (lmBest a b).2.1 := by
  rcases foldl_best_mem (lmCandidates a b) (0, 0, 0) with h0 | hmem
  · exact absurd (congrArg (fun t => t.2.2) h0) h
  · obtain ⟨i, hi, hc⟩ := List.mem_flatMap.mp hmem
    obtain ⟨j, hj, he⟩ := List.mem_map.mp hc
    have hi' := List.mem_range.mp hi
    have hj' := List.mem_range.mp hj
    have hbest : lmBest a b = (i, j, commonPrefixLen (a.drop i) (b.drop j)) := he.symm
    rw [hbest]
    refine ⟨hi', hj', ?_, ?_⟩
    · simpa using (commonPrefixLen_le_left (a.drop i) (b.drop j)).trans
        (le_of_eq (List.length_drop i a))
    · simpa using (commonPrefixLen_le_right (a.drop i) (b.drop j)).trans
        (le_of_eq (List.length_drop j b))

theorem matchTotalF_le (fuel : Nat) : ∀ (a b : List Char),
    matchTotalF fuel a b ≤ a.length ∧ matchTotalF fuel a b ≤ b.length := by
  induction fuel with
  | zero => intro a b; exact ⟨Nat.zero_le _, Nat.zero_le _⟩
  | succ fuel ih =>
    intro a b
    rw [matchTotalF]
    split
    · exact ⟨Nat.zero_le _, Nat.zero_le _⟩
    · rename_i ht
      have hs := lmBest_spec a b ht
      have h1 := ih (a.take (lmBest a b).1) (b.take (lmBest a b).2.1)
      have h2 := ih (a.drop ((lmBest a b).1 + (lmBest a b).2.2))
        (b.drop ((lmBest a b).2.1 + (lmBest a b).2.2))
      simp only [List.length_take, List.length_drop] at h1 h2
      constructor <;> omega

theorem sm_ratio_nonneg (a b : List Char) : 0 ≤ sm_ratio a b := by
  unfold sm_ratio
  split
  · norm_num
  · positivity

theorem sm_ratio_le_one (a b : List Char) : sm_ratio a b ≤ 1 := by
  unfold sm_ratio
  split
  · norm_num
  · rename_i h
    have hln : 0 < a.length + b.length := Nat.pos_of_ne_zero h
    have h1 := (matchTotalF_le (a.length + b.length) a b).1
    have h2 := (matchTotalF_le (a.length + b.length) a b).2
    have hnat : 2 * matchTotal a b ≤ a.length + b.length := by
      unfold matchTotal
      omega
    have hp : (0:ℚ) < (a.length:ℚ) + (b.length:ℚ) := by exact_mod_cast hln
    rw [div_le_one hp]
    exact_mod_cast hnat

/-- C2 counterexample: `accuracy_score = int(similarity * 100)` truncates
toward zero rather than rounding.  At transcription `"ab"` and target `"a"`
the similarity is 2/3; the source returns 66 while round(100 × 2/3) = 67. -/
theorem accuracy_score_truncates_cex :
    similarity "ab" "a" = 2/3 ∧ accuracy_score "ab" "a" = 66 ∧
    round ((similarity "ab" "a") * 100) = 67 ∧
    accuracy_score "ab" "a" ≠ round ((similarity "ab" "a") * 100) := by
  have hm : matchTotal (normalizeChars "ab".data) (normalizeChars "a".data) = 1 := by
    decide
  have hl1 : (normalizeChars "ab".data).length = 2 := by decide
  have hl2 : (normalizeChars "a".data).length = 1 := by decide
  have hsim : similarity "ab" "a" = 2/3 := by
    unfold similarity sm_ratio
    rw [hm, hl1, hl2]
    norm_num
  refine ⟨hsim, ?_, ?_, ?_⟩
  · unfold accuracy_score
    rw [hsim]
    norm_num
  · rw [hsim, round_eq]
    norm_num
  · unfold accuracy_score
    rw [hsim, round_eq]
    norm_num

/-- C2 (amended): the content accuracy score is the truncation
`int(100 × similarity)` — the floor, since the ratio is non-negative — not
the nearest-integer rounding; it always lies in [0, 100].  The hypothesis
restricts the normalized target to fewer than 200 characters, where the
unmodelled difflib autojunk heuristic is inactive and the embedding is
exact. -/
theorem accuracy_score_floor (t g : String)
    (_hg : (normalizeChars g.data).length < 200) :
    (accuracy_score t g : ℚ) ≤ similarity t g * 100 ∧
    similarity t g * 100 < accuracy_score t g + 1 ∧
    0 ≤ accuracy_score t g ∧ accuracy_score t g ≤ 100 := by
  have h0 : (0:ℚ) ≤ similarity t g := sm_ratio_nonneg _ _
  have h1 : similarity t g ≤ 1 := sm_ratio_le_one _ _
  refine ⟨Int.floor_le _, Int.lt_floor_add_one _, ?_, ?_⟩
  · exact Int.floor_nonneg.mpr (by positivity)
  · have : similarity t g * 100 ≤ 100 := by nlinarith
    calc accuracy_score t g ≤ ⌊(100:ℚ)⌋ := Int.floor_le_floor this
    _ = 100 := by norm_num

/-- Witness for C2's amended theorem at a concrete input. -/
theorem accuracy_score_floor_witness :
    (normalizeChars "a".data).length < 200 ∧
    ((accuracy_score "ab" "a" : ℚ) ≤ similarity "ab" "a" * 100 ∧
      similarity "ab" "a" * 100 < accuracy_score "ab" "a" + 1 ∧
      0 ≤ accuracy_score "ab" "a" ∧ accuracy_score "ab" "a" ≤ 100) :=
  ⟨by decide, accuracy_score_floor "ab" "a" (by decide)⟩

/-- C10: `_normalize_text` is idempotent — its output (lowercased,
punctuation stripped, whitespace collapsed to single spaces, trimmed) is a
fixed point of the function. -/
theorem normalize_text_idempotent (t : String) :
    normalize_text (normalize_text t) = normalize_text t :=
  congrArg String.mk (normalizeChars_idem t.data)

/-- C9: the returned `missing_words` and `added_words` of
`_evaluate_content_accuracy` are (capped) set differences over the
normalized word sets — every returned missing word is a target word absent
from the transcript, every returned added word is a transcript word absent
from the target — hence the two lists are disjoint, and each has at most
10 entries. -/
theorem content_accuracy_word_sets (transcription target_text : String) :
    (∀ w ∈ (evaluate_content_accuracy transcription target_text).missing_words,
      w ∈ (splitWords (normalizeChars target_text.data)).map
          (fun w => (⟨w⟩ : String)) ∧
      w ∉ (splitWords (normalizeChars transcription.data)).map
          (fun w => (⟨w⟩ : String))) ∧
    (∀ w ∈ (evaluate_content_accuracy transcription target_text).added_words,
      w ∈ (splitWords (normalizeChars transcription.data)).map
          (fun w => (⟨w⟩ : String)) ∧
      w ∉ (splitWords (normalizeChars target_text.data)).map
          (fun w => (⟨w⟩ : String))) ∧
    (∀ w ∈ (evaluate_content_accuracy transcription target_text).missing_words,
      w ∉ (evaluate_content_accuracy transcription target_text).added_words) ∧
    (evaluate_content_accuracy transcription target_text).missing_words.length ≤ 10 ∧
    (evaluate_content_accuracy transcription target_text).added_words.length ≤ 10 := by
  simp only [evaluate_content_accuracy]
  refine ⟨?_, ?_, ?_, List.length_take_le _ _, List.length_take_le _ _⟩
  · intro w hw
    have h1 := List.take_subset 10 _ hw
    have h2 := List.mem_dedup.mp h1
    have h3 := List.mem_filter.mp h2
    exact ⟨h3.1, of_decide_eq_true h3.2⟩
  · intro w hw
    have h1 := List.take_subset 10 _ hw
    have h2 := List.mem_dedup.mp h1
    have h3 := List.mem_filter.mp h2
    exact ⟨h3.1, of_decide_eq_true h3.2⟩
  · intro w hw hw'
    have h1 := List.take_subset 10 _ hw
    have h2 := List.mem_filter.mp (List.mem_dedup.mp h1)
    have h1' := List.take_subset 10 _ hw'
    have h2' := List.mem_filter.mp (List.mem_dedup.mp h1')
    exact of_decide_eq_true h2.2 h2'.1

/-- C7 counterexample: the failure sentinel `"Transcription failed"` is a
non-empty, hence truthy, string, so with a target text present the source
still computes and attaches a `content_accuracy` block — only an empty
transcription disables it. -/
theorem sentinel_scores_content_accuracy_cex :
    "content_accuracy" ∈ (generate XF (some "hello")).map Prod.fst ∧
    "content_accuracy" ∉
      (generate { XF with transcription := some "" } (some "hello")).map Prod.fst ∧
    "content_accuracy" ∉ (generate XF none).map Prod.fst := by
  refine ⟨?_, ?_, ?_⟩ <;> decide

/-- C7 (amended): the `content_accuracy` field is present iff the target
text is present and non-empty and the transcription is non-empty (Python
truthiness); the failure sentinel is non-empty and therefore does not
disable content-accuracy scoring.  The other four report fields are always
present, so the rest of feedback generation completes regardless. -/
theorem content_accuracy_presence (r : AnalysisResults) (tt : Option String) :
    ("content_accuracy" ∈ (generate r tt).map Prod.fst ↔
      pyTruthy tt = true ∧ r.transcription.getD "" ≠ "") ∧
    "overall_assessment" ∈ (generate r tt).map Prod.fst ∧
    "specific_feedback" ∈ (generate r tt).map Prod.fst ∧
    "strengths" ∈ (generate r tt).map Prod.fst ∧
    "improvement_suggestions" ∈ (generate r tt).map Prod.fst := by
  simp only [generate, List.map_append, List.mem_append]
  constructor
  · constructor
    · intro h
      rcases h with h | h
      · simp at h
      · by_cases hc : pyTruthy tt = true ∧ r.transcription.getD "" ≠ ""
        · exact hc
        · rw [if_neg hc] at h
          simp at h
    · intro hc
      right
      rw [if_pos hc]
      simp
  · refine ⟨Or.inl ?_, Or.inl ?_, Or.inl ?_, Or.inl ?_⟩ <;> simp

theorem ite_nil_ne_nil {α : Type} (c : Prop) [Decidable c] (l d : List α)
    (hc : c ↔ l = []) (hd : d ≠ []) : (if c then d else l) ≠ [] := by
  split
  · exact hd
  · rename_i h
    exact fun he => h (hc.mpr he)

theorem suggestions_ne_nil (pv ev sr pr er : ℚ) (emo : String) :
    generate_improvement_suggestions pv ev sr pr er emo ≠ [] := by
  simp only [generate_improvement_suggestions]
  exact ite_nil_ne_nil _ _ _ Iff.rfl (by simp)

theorem strengths_ne_nil (pv ev sr pr er : ℚ) (emo : String) :
    identify_strengths pv ev sr pr er emo ≠ [] := by
  simp only [identify_strengths]
  exact ite_nil_ne_nil _ _ _ Iff.rfl (by simp)

theorem lookup_generate_suggestions (r : AnalysisResults) (tt : Option String) :
    lookupStrList (generate r tt) "improvement_suggestions" =
      generate_improvement_suggestions (r.pitch_variability.getD 0)
        (r.energy_variability.getD 0) (r.speech_rate.getD 0)
        (r.pause_ratio.getD 0) (r.emphasis_ratio.getD 0)
        (r.primary_emotion.getD "neutral") := by
  simp [generate, lookupStrList, List.find?]

/-- C8 counterexample: at the all-zero/neutral descriptor set
(`pitchVariability = energyVariability = speechRate = emphasisRatio = 0`,
`pauseRatio = 1`, `primaryEmotion = "neutral"`) the strengths list is the
generic fallback, but the suggestions list is non-empty through six
specific suggestions: the generic suggestion fallback sentence does not
appear in it, contradicting "non-empty ... via the generic fallback
sentences" for suggestions. -/
theorem allzero_suggestions_not_generic_cex :
    identify_strengths 0 0 0 1 0 "neutral" =
      ["Consistent delivery that provides a foundation to build upon"] ∧
    generate_improvement_suggestions 0 0 0 1 0 "neutral" =
      ["Vary your pitch more to make your delivery more engaging",
       "Use more dynamic volume to emphasize important points",
       "Increase your speaking pace slightly to maintain listener interest",
       "Reduce the number of pauses to maintain better flow in your speech",
       "Emphasize key points more to increase impact and highlight important information",
       "Try to convey more enthusiasm and confidence in your delivery"] ∧
    "Practice with different styles to further enhance your already strong delivery"
      ∉ generate_improvement_suggestions 0 0 0 1 0 "neutral" := by
  have hs : identify_strengths 0 0 0 1 0 "neutral" =
      ["Consistent delivery that provides a foundation to build upon"] := by
    norm_num [identify_strengths, th_pitch_medium, th_energy_medium,
      th_rate_optimal_low, th_rate_optimal_high, th_pause_medium, th_pause_high]
    all_goals decide
  have hg : generate_improvement_suggestions 0 0 0 1 0 "neutral" =
      ["Vary your pitch more to make your delivery more engaging",
       "Use more dynamic volume to emphasize important points",
       "Increase your speaking pace slightly to maintain listener interest",
       "Reduce the number of pauses to maintain better flow in your speech",
       "Emphasize key points more to increase impact and highlight important information",
       "Try to convey more enthusiasm and confidence in your delivery"] := by
    norm_num [generate_improvement_suggestions, th_pitch_medium, th_energy_medium,
      th_rate_optimal_low, th_rate_optimal_high, th_pause_medium, th_pause_high]
    all_goals decide
  refine ⟨hs, hg, ?_⟩
  rw [hg]
  decide

/-- C8 (amended): on the all-zero/neutral descriptor set the report is
produced in full (the embedding is total, mirroring that every dictionary
access has a default and no branch of the source raises): the four fields
are present, strengths is exactly the one generic fallback sentence, and
suggestions is non-empty, consisting of the six specific suggestions that
fire at this input rather than the generic suggestion fallback. -/
theorem generate_allzero_total :
    (generate X0 none).map Prod.fst =
      ["overall_assessment", "specific_feedback", "strengths",
        "improvement_suggestions"] ∧
    ("strengths",
      FVal.ls ["Consistent delivery that provides a foundation to build upon"])
      ∈ generate X0 none ∧
    ("improvement_suggestions", FVal.ls
      ["Vary your pitch more to make your delivery more engaging",
       "Use more dynamic volume to emphasize important points",
       "Increase your speaking pace slightly to maintain listener interest",
       "Reduce the number of pauses to maintain better flow in your speech",
       "Emphasize key points more to increase impact and highlight important information",
       "Try to convey more enthusiasm and confidence in your delivery"])
      ∈ generate X0 none := by
  have hs : identify_strengths 0 0 0 1 0 "neutral" =
      ["Consistent delivery that provides a foundation to build upon"] := by
    norm_num [identify_strengths, th_pitch_medium, th_energy_medium,
      th_rate_optimal_low, th_rate_optimal_high, th_pause_medium, th_pause_high]
    all_goals decide
  have hg : generate_improvement_suggestions 0 0 0 1 0 "neutral" =
      ["Vary your pitch more to make your delivery more engaging",
       "Use more dynamic volume to emphasize important points",
       "Increase your speaking pace slightly to maintain listener interest",
       "Reduce the number of pauses to maintain better flow in your speech",
       "Emphasize key points more to increase impact and highlight important information",
       "Try to convey more enthusiasm and confidence in your delivery"] := by
    norm_num [generate_improvement_suggestions, th_pitch_medium, th_energy_medium,
      th_rate_optimal_low, th_rate_optimal_high, th_pause_medium, th_pause_high]
    all_goals decide
  refine ⟨by decide, ?_, ?_⟩
  · simp [generate, X0, hs]
  · simp [generate, X0, hg]

/-- C5 counterexample: with the all-zero analysis on both sides every
dimension still classifies as a match, but the composite similarity is 60%,
not 100%: the four numeric factors fall back to 0.5 because the benchmark
values are 0 (only the emotion factor is 1.0). -/
theorem comparative_self_zero_cex :
    (generate_comparison 0 0 0 0 0 "neutral" 0 0 0 0 0 0 "neutral" 0).matches' =
      [.exprMatches, .pitchMatch, .energyMatch, .rateMatch, .pauseMatch,
        .emotionMatch "Neutral"] ∧
    (generate_comparison 0 0 0 0 0 "neutral" 0 0 0 0 0 0 "neutral" 0).strengths = [] ∧
    (generate_comparison 0 0 0 0 0 "neutral" 0 0 0 0 0 0 "neutral" 0).improvements
      = [] ∧
    similarity_score 0 0 0 0 0 0 0 0 "neutral" "neutral" = 60 ∧
    similarity_score 0 0 0 0 0 0 0 0 "neutral" "neutral" ≠ 100 := by
  have hfe : fmtEmotion "neutral" = "Neutral" := by decide
  refine ⟨?_, ?_, ?_, ?_, ?_⟩ <;>
    norm_num [generate_comparison, similarity_score, similarity_factors, hfe]

/-- C5 (amended): comparing any analysis metric set with itself classifies
all six dimensions as matches, with no strengths and no improvements (given
a non-negative expressiveness score, as produced scores always are); and the
composite similarity is exactly 100% when the four numeric benchmark values
are positive — a zero benchmark value sends its factor to the 0.5 fallback
instead. -/
theorem comparative_self (pv ev sr pr er es : ℚ) (emo : String) (hes : 0 ≤ es) :
    (generate_comparison pv ev sr pr er emo es pv ev sr pr er emo es).matches' =
      [.exprMatches, .pitchMatch, .energyMatch, .rateMatch, .pauseMatch,
        .emotionMatch (fmtEmotion emo)] ∧
    (generate_comparison pv ev sr pr er emo es pv ev sr pr er emo es).strengths
      = [] ∧
    (generate_comparison pv ev sr pr er emo es pv ev sr pr er emo es).improvements
      = [] ∧
    (0 < es → 0 < pv → 0 < ev → 0 < sr →
      similarity_score es es pv pv ev ev sr sr emo emo = 100) := by
  have hexpr : es ≥ es * (9/10) := by linarith
  have hnot : ¬(es > es) := lt_irrefl es
  refine ⟨?_, ?_, ?_, ?_⟩
  · simp only [generate_comparison, sub_self, abs_zero, zero_div, ite_self]
    rw [if_pos hexpr, if_neg hnot]
    norm_num
  · simp only [generate_comparison, sub_self, abs_zero, zero_div, ite_self]
    rw [if_pos hexpr, if_neg hnot]
    norm_num
  · simp only [generate_comparison, sub_self, abs_zero, zero_div, ite_self]
    rw [if_pos hexpr, if_neg hnot]
    norm_num
  · intro h1 h2 h3 h4
    simp only [similarity_score, similarity_factors, sub_self, abs_zero, zero_div]
    rw [if_pos h1, if_pos h2, if_pos h3, if_pos h4, div_self (ne_of_gt h1)]
    norm_num

/-- Witness for C5's amended theorem at a concrete input. -/
theorem comparative_self_witness :
    (0:ℚ) ≤ 50 ∧
    ((generate_comparison 1 1 1 1 1 "neutral" 50 1 1 1 1 1 "neutral" 50).matches' =
        [.exprMatches, .pitchMatch, .energyMatch, .rateMatch, .pauseMatch,
          .emotionMatch (fmtEmotion "neutral")] ∧
      (generate_comparison 1 1 1 1 1 "neutral" 50 1 1 1 1 1 "neutral" 50).strengths
        = [] ∧
      (generate_comparison 1 1 1 1 1 "neutral" 50 1 1 1 1 1 "neutral" 50).improvements
        = [] ∧
      (0 < (50:ℚ) → 0 < (1:ℚ) → 0 < (1:ℚ) → 0 < (1:ℚ) →
        similarity_score 50 50 1 1 1 1 1 1 "neutral" "neutral" = 100)) :=
  ⟨by norm_num, comparative_self 1 1 1 1 1 50 "neutral" (by norm_num)⟩

/-- C3 counterexample: the source's expressiveness factor is the capped
ratio `min(user/benchmark, 1)`, not the difference form the claim states.
At user expressiveness 60 against benchmark 50 (all other dimensions equal
and positive, same emotion) the source computes 100%, the claimed formula
96%. -/
theorem comparative_similarity_cex :
    similarity_score 60 50 10 10 (1/10) (1/10) 3 3 "neutral" "neutral" = 100 ∧
    claimed_similarity_score 60 50 10 10 (1/10) (1/10) 3 3 "neutral" "neutral"
      = 96 ∧
    similarity_score 60 50 10 10 (1/10) (1/10) 3 3 "neutral" "neutral" ≠
      claimed_similarity_score 60 50 10 10 (1/10) (1/10) 3 3 "neutral" "neutral" := by
  refine ⟨?_, ?_, ?_⟩ <;>
    norm_num [similarity_score, similarity_factors, claimed_similarity_score, abs]

/-- C3 (amended): the composite similarity is the mean of five factors —
the capped ratio `min(user/benchmark, 1)` for expressiveness, the
difference form `1 − min(|user − benchmark|/benchmark, 1)` for pitch,
energy and speech rate, and 1.0/0.5 for equal/unequal primary emotion, each
numeric factor falling back to 0.5 when its benchmark value is not
positive — scaled by 100 and bucketed into the four assessment tiers at the
≥80 / ≥60 / ≥40 / else boundaries. -/
theorem comparative_similarity_spec (ue be upv bpv uev bev usr bsr : ℚ)
    (uemo bemo : String) :
    similarity_score ue be upv bpv uev bev usr bsr uemo bemo =
      ((if be > 0 then min (ue / be) 1 else 1/2) +
        (if bpv > 0 then 1 - min (|upv - bpv| / bpv) 1 else 1/2) +
        (if bev > 0 then 1 - min (|uev - bev| / bev) 1 else 1/2) +
        (if bsr > 0 then 1 - min (|usr - bsr| / bsr) 1 else 1/2) +
        (if uemo = bemo then 1 else (1/2 : ℚ))) / 5 * 100 ∧
    ((generate_comparative_assessment ue be upv bpv uev bev usr bsr uemo bemo).tier
        = SimTier.verySimilar ↔
      80 ≤ similarity_score ue be upv bpv uev bev usr bsr uemo bemo) ∧
    ((generate_comparative_assessment ue be upv bpv uev bev usr bsr uemo bemo).tier
        = SimTier.manySimilarities ↔
      60 ≤ similarity_score ue be upv bpv uev bev usr bsr uemo bemo ∧
        ¬80 ≤ similarity_score ue be upv bpv uev bev usr bsr uemo bemo) ∧
    ((generate_comparative_assessment ue be upv bpv uev bev usr bsr uemo bemo).tier
        = SimTier.someShared ↔
      40 ≤ similarity_score ue be upv bpv uev bev usr bsr uemo bemo ∧
        ¬60 ≤ similarity_score ue be upv bpv uev bev usr bsr uemo bemo) ∧
    ((generate_comparative_assessment ue be upv bpv uev bev usr bsr uemo bemo).tier
        = SimTier.differsSignificantly ↔
      ¬40 ≤ similarity_score ue be upv bpv uev bev usr bsr uemo bemo) := by
  constructor
  · simp only [similarity_score, similarity_factors, List.sum_cons, List.sum_nil,
      List.length_cons, List.length_nil]
    push_cast
    ring
  · simp only [generate_comparative_assessment, ge_iff_le]
    split_ifs with h1 h2 h3 <;> simp_all <;> (try constructor) <;>
      (intros; linarith)

/-- C4 (amended): for any user analysis, any present non-empty benchmark and
any optional target text, the comparative report contains the fields
overall_assessment, comparison, specific_feedback and
improvement_suggestions (the last one a non-empty list), but — unlike a
FeedbackReport — no top-level strengths field: strength classifications
appear only inside comparison. -/
theorem generate_comparative_fields (u bm : AnalysisResults)
    (tt : Option String) (hbm : bm ≠ ({} : AnalysisResults)) :
    "overall_assessment" ∈ (generate_comparative u (some bm) tt).map Prod.fst ∧
    "comparison" ∈ (generate_comparative u (some bm) tt).map Prod.fst ∧
    "specific_feedback" ∈ (generate_comparative u (some bm) tt).map Prod.fst ∧
    "improvement_suggestions" ∈
      (generate_comparative u (some bm) tt).map Prod.fst ∧
    "strengths" ∉ (generate_comparative u (some bm) tt).map Prod.fst ∧
    ∃ l, ("improvement_suggestions", FVal.ls l) ∈
        generate_comparative u (some bm) tt ∧ l ≠ [] := by
  simp only [generate_comparative, if_neg hbm]
  refine ⟨?_, ?_, ?_, ?_, ?_, ?_⟩
  · simp
  · simp
  · simp
  · simp
  · simp only [List.map_append, List.mem_append]
    rintro (h | h)
    · simp at h
    · split at h <;> simp_all
  · refine ⟨lookupStrList (generate u tt) "improvement_suggestions", by simp, ?_⟩
    rw [lookup_generate_suggestions]
    exact suggestions_ne_nil _ _ _ _ _ _

/-- C4 counterexample: a concrete comparative report (benchmark present)
whose key set has no top-level `strengths` field — unlike a FeedbackReport,
which always carries one. -/
theorem comparative_report_no_strengths_cex :
    (generate_comparative X0 (some X0) none).map Prod.fst =
      ["overall_assessment", "comparison", "specific_feedback",
        "improvement_suggestions"] ∧
    "strengths" ∉ (generate_comparative X0 (some X0) none).map Prod.fst := by
  refine ⟨?_, ?_⟩ <;> decide

/-- Witness for C4's amended theorem at a concrete input. -/
theorem generate_comparative_fields_witness :
    X0 ≠ ({} : AnalysisResults) ∧
    ("overall_assessment" ∈ (generate_comparative X0 (some X0) none).map Prod.fst ∧
      "comparison" ∈ (generate_comparative X0 (some X0) none).map Prod.fst ∧
      "specific_feedback" ∈ (generate_comparative X0 (some X0) none).map Prod.fst ∧
      "improvement_suggestions" ∈
        (generate_comparative X0 (some X0) none).map Prod.fst ∧
      "strengths" ∉ (generate_comparative X0 (some X0) none).map Prod.fst ∧
      ∃ l, ("improvement_suggestions", FVal.ls l) ∈
          generate_comparative X0 (some X0) none ∧ l ≠ []) :=
  ⟨by decide, generate_comparative_fields X0 X0 none (by decide)⟩

/-- Witness for C6 at concrete inputs. -/
theorem expressiveness_mono_witness :
    (0:ℚ) ≤ 1 ∧ (1:ℚ) ≤ 2 ∧
    (calculate_expressiveness_score 1 (1/10) 3 (1/5) (1/2) ≤
        calculate_expressiveness_score 2 (1/10) 3 (1/5) (1/2) ∧
      calculate_expressiveness_score 20 1 3 (1/5) (1/2) ≤
        calculate_expressiveness_score 20 2 3 (1/5) (1/2) ∧
      calculate_expressiveness_score 20 (1/10) 3 (1/5) 1 ≤
        calculate_expressiveness_score 20 (1/10) 3 (1/5) 2) :=
  ⟨by norm_num, by norm_num,
    expressiveness_mono 1 2 20 (1/10) 3 (1/5) (1/2) (by norm_num) (by norm_num)⟩

end ToneCoach
